import Mathlib

/-!
Verification of the UIA auto-clicker (`uia_clicker.py`): a shallow embedding
of `click_button` (the invocation cascade) and `main` (the watch loop), with
an explicit trace of backend calls, sleeps and log lines, over an abstract
deterministic backend described by per-control / per-cycle response records.

Delays are modelled as exact rationals (the script uses 0.5 and a float
command-line delay).  A raised Python exception is modelled as
`Except.error msg`; `except` blocks are modelled by matching on the error.
-/

namespace UiaClicker

/-- Observable events of one run: backend calls, sleeps and log lines.
`String` arguments on control events are the `button_type` tag passed to
`click_button` ("Accept" / "Confirm"); `search` records the window name and
the regex pattern of a `window.ButtonControl(searchDepth=15, RegexName=p)`
subtree search. -/
inductive Event where
  | enumChildren : Event
  | search (window : String) (pattern : String) : Event
  | existsCall (btype : String) : Event
  | nameRead (btype : String) : Event
  | enabledRead (btype : String) : Event
  | invokeCall (btype : String) : Event
  | legacyGet (btype : String) : Event
  | legacyDoDefault (btype : String) : Event
  | clickCall (btype : String) : Event
  | sleep (seconds : ℚ) : Event
  | log (msg : String) : Event
  deriving DecidableEq, Repr

/-- The deterministic responses of the backend for one control handle:
each field is what the corresponding `uiautomation` call returns, or the
message of the exception it raises. -/
structure ControlBehavior where
  existsR : Except String Bool
  nameR : Except String String
  isEnabledR : Except String Bool
  /-- Result of `button.Invoke()`: `ok` = returns, `error` = raises. -/
  invokeR : Except String Unit
  /-- Result of `button.GetLegacyIAccessiblePattern()`: `ok true` = truthy
  pattern object, `ok false` = falsy, `error` = raises. -/
  getLegacy : Except String Bool
  /-- Result of `legacy.DoDefaultAction()`. -/
  doDefaultAction : Except String Unit
  /-- Result of `button.Click(simulateMove=False)`. -/
  clickR : Except String Unit
  deriving Repr

/-- Embedding of `click_button(button, button_type, click_delay)`.
Returns the trace of events together with the Python outcome:
`Except.ok b` models `return b`, `Except.error e` models an uncaught
exception escaping the function. -/
def click_button (b : ControlBehavior) (button_type : String) (click_delay : ℚ) :
    List Event × Except String Bool :=
  -- if not button.Exists(0, 0): return False
  match b.existsR with
  | .error e => ([.existsCall button_type], .error e)
  | .ok false => ([.existsCall button_type], .ok false)
  | .ok true =>
    -- name = button.Name   (outside any try block)
    match b.nameR with
    | .error e => ([.existsCall button_type, .nameRead button_type], .error e)
    | .ok nm =>
      let t0 : List Event := [.existsCall button_type, .nameRead button_type,
        .log ("Found " ++ button_type ++ " button: " ++ nm)]
      -- if button.IsEnabled:
      match b.isEnabledR with
      | .error e => (t0 ++ [.enabledRead button_type], .error e)
      | .ok false => (t0 ++ [.enabledRead button_type], .ok false)
      | .ok true =>
        -- if click_delay > 0: time.sleep(click_delay)
        let t1 := t0 ++ [Event.enabledRead button_type] ++
          (if 0 < click_delay then [Event.sleep click_delay] else [])
        -- Method 1: button.Invoke()
        match b.invokeR with
        | .ok _ =>
          (t1 ++ [.invokeCall button_type,
            .log ("Success: " ++ button_type ++ " button invoked via UIA Pattern!"),
            .sleep (1/2)], .ok true)
        | .error e1 =>
          let t2 := t1 ++ [Event.invokeCall button_type,
            Event.log ("Invoke failed: " ++ e1)]
          -- Method 2: legacy = button.GetLegacyIAccessiblePattern(); if legacy: ...
          let m2 : List Event × Bool :=
            match b.getLegacy with
            | .error e2 =>
              (t2 ++ [.legacyGet button_type,
                .log ("Legacy IAccessible failed: " ++ e2)], false)
            | .ok false => (t2 ++ [.legacyGet button_type], false)
            | .ok true =>
              match b.doDefaultAction with
              | .ok _ =>
                (t2 ++ [.legacyGet button_type, .legacyDoDefault button_type,
                  .log ("Success: " ++ button_type ++
                    " button invoked via LegacyIAccessible!"),
                  .sleep (1/2)], true)
              | .error e2 =>
                (t2 ++ [.legacyGet button_type, .legacyDoDefault button_type,
                  .log ("Legacy IAccessible failed: " ++ e2)], false)
          if m2.2 then (m2.1, .ok true)
          else
            -- Method 3: button.Click(simulateMove=False)
            match b.clickR with
            | .ok _ =>
              (m2.1 ++ [.clickCall button_type,
                .log ("Fallback: " ++ button_type ++
                  " button physical click used (Mouse Moved)")], .ok true)
            | .error e3 =>
              (m2.1 ++ [.clickCall button_type,
                .log ("Physical click failed: " ++ e3)], .ok false)

/-- One top-level window as the backend reports it in a given cycle:
its class tag, display name, and the control that each of the two
`ButtonControl` subtree searches resolves to (`error` = the search raises). -/
structure WindowB where
  className : String
  name : String
  acceptSearch : Except String ControlBehavior
  confirmSearch : Except String ControlBehavior
  deriving Repr

/-- Startup configuration: the two regex patterns and the pre-click delay. -/
structure Config where
  accept_pattern : String
  confirm_pattern : String
  click_delay : ℚ
  deriving Repr

/-- The `for window in root.GetChildren():` body of one cycle, with
`continue` / `break` semantics.  `Except.ok ()` = the loop body finished
normally (exhausted or `break`); `Except.error e` = an exception escaped
to the cycle boundary. -/
def processWindows (cfg : Config) : List WindowB → List Event × Except String Unit
  | [] => ([], .ok ())
  | w :: ws =>
    if w.className = "Chrome_WidgetWin_1" then
      -- accept_button = window.ButtonControl(searchDepth=15, RegexName=accept_pattern)
      match w.acceptSearch with
      | .error e => ([.search w.name cfg.accept_pattern], .error e)
      | .ok acceptBtn =>
        let ca := click_button acceptBtn "Accept" cfg.click_delay
        let tA := Event.search w.name cfg.accept_pattern :: ca.1
        match ca.2 with
        | .error e => (tA, .error e)
        | .ok true =>
          -- time.sleep(0.5); confirm_button = window.ButtonControl(...)
          match w.confirmSearch with
          | .error e =>
            (tA ++ [.sleep (1/2), .search w.name cfg.confirm_pattern], .error e)
          | .ok confirmBtn =>
            let tB := tA ++ [Event.sleep (1/2),
              Event.search w.name cfg.confirm_pattern]
            -- if confirm_button.Exists(0, 0): click_button(confirm_button, ...)
            match confirmBtn.existsR with
            | .error e => (tB ++ [.existsCall "Confirm"], .error e)
            | .ok false => (tB ++ [.existsCall "Confirm"], .ok ())  -- break
            | .ok true =>
              let cc := click_button confirmBtn "Confirm" cfg.click_delay
              match cc.2 with
              | .error e => (tB ++ [.existsCall "Confirm"] ++ cc.1, .error e)
              | .ok _ => (tB ++ [.existsCall "Confirm"] ++ cc.1, .ok ())  -- break
        | .ok false =>
          -- confirm_button = window.ButtonControl(...); if click_button(...): break
          match w.confirmSearch with
          | .error e => (tA ++ [.search w.name cfg.confirm_pattern], .error e)
          | .ok confirmBtn =>
            let cc := click_button confirmBtn "Confirm" cfg.click_delay
            let tC := tA ++ [Event.search w.name cfg.confirm_pattern] ++ cc.1
            match cc.2 with
            | .error e => (tC, .error e)
            | .ok true => (tC, .ok ())  -- break
            | .ok false =>
              let rest := processWindows cfg ws
              (tC ++ rest.1, rest.2)
    else
      processWindows cfg ws  -- continue

/-- The backend's behaviour for one poll cycle: what `root.GetChildren()`
returns (or the exception it raises). -/
structure CycleEnv where
  children : Except String (List WindowB)
  deriving Repr

/-- One iteration of the inner `try: ... except Exception: pass` block,
before the poll sleep.  The returned `Except` is the outcome the
cycle-boundary handler sees. -/
def cycle (cfg : Config) (env : CycleEnv) : List Event × Except String Unit :=
  match env.children with
  | .error e => ([.enumChildren], .error e)
  | .ok ws =>
    let p := processWindows cfg ws
    (Event.enumChildren :: p.1, p.2)

/-- The `while True:` watch loop, run for one cycle per supplied
environment (fuel = list length).  The cycle outcome is discarded
(`except Exception as e: pass`) and the loop sleeps the 0.5 poll interval
before the next cycle. -/
def runMain (cfg : Config) : List CycleEnv → List Event
  | [] => []
  | env :: rest => (cycle cfg env).1 ++ Event.sleep (1/2) :: runMain cfg rest

/-! ### Event classifiers used to state the claims -/

/-- True exactly on the three backend invocation primitives (strategy 1
`Invoke`, strategy 2 `DoDefaultAction`, strategy 3 `Click`). -/
def isInvocation : Event → Bool
  | .invokeCall _ => true
  | .legacyDoDefault _ => true
  | .clickCall _ => true
  | _ => false

/-- True on the state re-verification reads (`Exists`, `IsEnabled`). -/
def isCheckEvent : Event → Bool
  | .existsCall _ => true
  | .enabledRead _ => true
  | _ => false

/-- True on log lines (`flush_print` output). -/
def isLogEvent : Event → Bool
  | .log _ => true
  | _ => false

/-- True on subtree searches (`window.ButtonControl(...)`). -/
def isSearchEvent : Event → Bool
  | .search _ _ => true
  | _ => false

/-- True on sleeps (any deliberate time gap). -/
def isSleepEvent : Event → Bool
  | .sleep _ => true
  | _ => false

/-- Formalisation of the SPEC's words for claim C3, on traces: whenever a
time gap (a `sleep`, index `i`) is followed by an invocation-strategy call
(index `j`), a re-verification read (`Exists` / `IsEnabled`) occurs
strictly between them. -/
def reverifiedBetween (t : List Event) : Bool :=
  (List.range t.length).all fun i =>
    (List.range t.length).all fun j =>
      !(decide (i < j) && isSleepEvent (t.getD i (.enumChildren)) &&
          isInvocation (t.getD j (.enumChildren))) ||
        ((List.range j).any fun k =>
          decide (i < k) && isCheckEvent (t.getD k (.enumChildren)))

/-! ### Concrete backend behaviours used by witnesses and counterexamples -/

/-- A button whose every backend call succeeds. -/
def okButton : ControlBehavior :=
  { existsR := .ok true, nameR := .ok "Accept All", isEnabledR := .ok true,
    invokeR := .ok (), getLegacy := .ok true, doDefaultAction := .ok (),
    clickR := .ok () }

/-- A button supporting only the physical click: `Invoke` raises and the
legacy pattern object is falsy. -/
def clickOnlyButton : ControlBehavior :=
  { existsR := .ok true, nameR := .ok "Accept All", isEnabledR := .ok true,
    invokeR := .error "unsupported", getLegacy := .ok false,
    doDefaultAction := .ok (), clickR := .ok () }

/-- A button whose `Name` property read raises. -/
def nameRaisesButton : ControlBehavior :=
  { existsR := .ok true, nameR := .error "COMError", isEnabledR := .ok true,
    invokeR := .ok (), getLegacy := .ok true, doDefaultAction := .ok (),
    clickR := .ok () }

/-- A configuration with the script's default patterns and a 1-second
pre-click delay. -/
def defaultCfg : Config :=
  { accept_pattern := "Accept.*", confirm_pattern := "Confirm.*",
    click_delay := 1 }

/-- A target-class window where both searches find `okButton`. -/
def okWindow : WindowB :=
  { className := "Chrome_WidgetWin_1", name := "Antigravity",
    acceptSearch := .ok okButton, confirmSearch := .ok okButton }

/-- A cycle in which `root.GetChildren()` raises. -/
def enumRaisesEnv : CycleEnv := { children := .error "boom" }

/-! ### Helper lemmas -/

/-- `click_button` never performs a subtree search. -/
lemma click_button_no_search (b : ControlBehavior) (bt : String) (d : ℚ) :
    ((click_button b bt d).1.countP isSearchEvent) = 0 := by
  obtain ⟨ex, nmR, en, inv, leg, dda, cl⟩ := b
  rcases ex with e | (_ | _) <;>
    rcases nmR with e | nmv <;>
      rcases en with e | (_ | _) <;>
        rcases inv with e | u <;>
          rcases leg with e | (_ | _) <;>
            rcases dda with e | u2 <;>
              rcases cl with e | u3 <;>
                by_cases hd : (0 : ℚ) < d <;>
                  simp [click_button, isSearchEvent, hd]

/-- Shape of the `click_button` trace when the control exists, its name
reads, and it is enabled: the existence / name / enabled reads, then the
optional pre-click sleep, then the first invocation attempt, after which no
further re-verification read or search occurs. -/
lemma click_button_enabled_shape (b : ControlBehavior) (bt nm : String) (d : ℚ)
    (hex : b.existsR = .ok true) (hnm : b.nameR = .ok nm)
    (hen : b.isEnabledR = .ok true) :
    ∃ post, (click_button b bt d).1 =
      [Event.existsCall bt, Event.nameRead bt,
        Event.log ("Found " ++ bt ++ " button: " ++ nm), Event.enabledRead bt] ++
        (if 0 < d then [Event.sleep d] else []) ++ Event.invokeCall bt :: post ∧
      post.countP isCheckEvent = 0 ∧ post.countP isSearchEvent = 0 := by
  obtain ⟨ex, nmR, en, inv, leg, dda, cl⟩ := b
  dsimp only at hex hnm hen
  subst hex hnm hen
  rcases inv with e | u <;>
    rcases leg with e2 | (_ | _) <;>
      rcases dda with e3 | u2 <;>
        rcases cl with e4 | u3 <;>
          by_cases hd : (0 : ℚ) < d <;>
            refine ⟨_, by simp only [click_button, hd, if_true, if_false,
              List.append_assoc, List.cons_append, List.nil_append,
              List.append_nil]; try rfl, ?_, ?_⟩ <;>
            simp [click_button, hd, isCheckEvent, isSearchEvent]

/-- No subtree-search event ever appears in a `click_button` trace. -/
lemma click_button_search_not_mem (b : ControlBehavior) (bt : String) (d : ℚ)
    (wn p : String) : Event.search wn p ∉ (click_button b bt d).1 := by
  obtain ⟨ex, nmR, en, inv, leg, dda, cl⟩ := b
  rcases ex with e | (_ | _) <;>
    rcases nmR with e | nmv <;>
      rcases en with e | (_ | _) <;>
        rcases inv with e | u <;>
          rcases leg with e | (_ | _) <;>
            rcases dda with e | u2 <;>
              rcases cl with e | u3 <;>
                by_cases hd : (0 : ℚ) < d <;>
                  simp [click_button, hd]

/-- Every cycle trace records the `root.GetChildren()` enumeration. -/
lemma enumChildren_mem_cycle (cfg : Config) (env : CycleEnv) :
    Event.enumChildren ∈ (cycle cfg env).1 := by
  obtain ⟨ch⟩ := env
  rcases ch with e | ws <;> simp [cycle]

/-! ### Claims -/

/-- C1: for an existing, enabled control the cascade tries strategy 1
(`Invoke`), then strategy 2 (legacy default action), then strategy 3
(physical click), stopping at the first success: if strategy 1 succeeds no
strategy-2 or strategy-3 backend call occurs; if strategy 2 succeeds no
strategy-3 call occurs; if strategies 1 and 2 both fail the physical click
is attempted exactly once. -/
theorem click_button_cascade_priority (b : ControlBehavior) (bt nm : String)
    (d : ℚ) (hex : b.existsR = .ok true) (hnm : b.nameR = .ok nm)
    (hen : b.isEnabledR = .ok true) :
    ((∃ u, b.invokeR = .ok u) →
      (click_button b bt d).2 = .ok true ∧
      (click_button b bt d).1.count (Event.legacyGet bt) = 0 ∧
      (click_button b bt d).1.count (Event.legacyDoDefault bt) = 0 ∧
      (click_button b bt d).1.count (Event.clickCall bt) = 0) ∧
    ((∃ e, b.invokeR = .error e) → b.getLegacy = .ok true →
      b.doDefaultAction = .ok () →
      (click_button b bt d).2 = .ok true ∧
      (click_button b bt d).1.count (Event.clickCall bt) = 0) ∧
    ((∃ e, b.invokeR = .error e) →
      (b.getLegacy = .ok false ∨ (∃ e, b.getLegacy = .error e) ∨
        (b.getLegacy = .ok true ∧ ∃ e, b.doDefaultAction = .error e)) →
      (click_button b bt d).1.count (Event.clickCall bt) = 1) := by
  obtain ⟨ex, nmR, en, inv, leg, dda, cl⟩ := b
  dsimp only at hex hnm hen
  subst hex hnm hen
  refine ⟨?_, ?_, ?_⟩
  · rintro ⟨u, hu⟩
    dsimp only at hu
    subst hu
    by_cases hd : (0 : ℚ) < d <;> simp [click_button, hd]
  · rintro ⟨e, he⟩ hleg hdda
    dsimp only at he hleg hdda
    subst he hleg hdda
    by_cases hd : (0 : ℚ) < d <;> simp [click_button, hd]
  · rintro ⟨e, he⟩ hfail
    dsimp only at he
    subst he
    rcases hfail with hleg | ⟨e2, hleg⟩ | ⟨hleg, e3, hdda⟩ <;>
      dsimp only at hleg <;>
        [subst hleg; subst hleg; (dsimp only at hdda; subst hleg hdda)] <;>
          rcases cl with e4 | u4 <;>
            by_cases hd : (0 : ℚ) < d <;> simp [click_button, hd]

/-- C1 witness: a control whose `Invoke` succeeds is activated by
strategy 1 alone. -/
theorem click_button_cascade_priority_witness :
    (click_button okButton "Accept" 0).2 = .ok true ∧
    (click_button okButton "Accept" 0).1.count (Event.legacyGet "Accept") = 0 ∧
    (click_button okButton "Accept" 0).1.count (Event.legacyDoDefault "Accept") = 0 ∧
    (click_button okButton "Accept" 0).1.count (Event.clickCall "Accept") = 0 :=
  (click_button_cascade_priority okButton "Accept" "Accept All" 0
    rfl rfl rfl).1 ⟨(), rfl⟩

/-- C2: a control that exists (and whose name reads) but reports itself
disabled makes the cascade return `False` immediately: the trace is exactly
the existence read, the name read, the "Found" log line and the enabled
read — in particular no backend invocation call occurs. -/
theorem click_button_disabled_short_circuits (b : ControlBehavior)
    (bt nm : String) (d : ℚ) (hex : b.existsR = .ok true)
    (hnm : b.nameR = .ok nm) (hdis : b.isEnabledR = .ok false) :
    (click_button b bt d).2 = .ok false ∧
    (click_button b bt d).1 =
      [Event.existsCall bt, Event.nameRead bt,
        Event.log ("Found " ++ bt ++ " button: " ++ nm), Event.enabledRead bt] ∧
    (click_button b bt d).1.countP isInvocation = 0 := by
  obtain ⟨ex, nmR, en, inv, leg, dda, cl⟩ := b
  dsimp only at hex hnm hdis
  subst hex hnm hdis
  refine ⟨rfl, rfl, by simp [click_button, isInvocation]⟩

/-- C2 witness: a disabled but otherwise fully functional button is never
invoked. -/
theorem click_button_disabled_short_circuits_witness :
    (click_button { okButton with isEnabledR := .ok false } "Accept" 0).2 =
      .ok false ∧
    (click_button { okButton with isEnabledR := .ok false } "Accept" 0).1 =
      [Event.existsCall "Accept", Event.nameRead "Accept",
        Event.log "Found Accept button: Accept All", Event.enabledRead "Accept"] ∧
    (click_button { okButton with isEnabledR := .ok false } "Accept"
      0).1.countP isInvocation = 0 :=
  click_button_disabled_short_circuits _ "Accept" "Accept All" 0 rfl rfl rfl

/-- C8: a control whose `Exists(0, 0)` returns false at cascade entry makes
the cascade return `False` with a trace holding only that existence read —
no invocation strategy is attempted. -/
theorem click_button_not_found_short_circuits (b : ControlBehavior)
    (bt : String) (d : ℚ) (hex : b.existsR = .ok false) :
    (click_button b bt d).2 = .ok false ∧
    (click_button b bt d).1 = [Event.existsCall bt] ∧
    (click_button b bt d).1.countP isInvocation = 0 := by
  obtain ⟨ex, nmR, en, inv, leg, dda, cl⟩ := b
  dsimp only at hex
  subst hex
  exact ⟨rfl, rfl, rfl⟩

/-- C8 witness: a vanished (stale) button is reported unsuccessful without
any invocation attempt. -/
theorem click_button_not_found_short_circuits_witness :
    (click_button { okButton with existsR := .ok false } "Accept" 0).2 =
      .ok false ∧
    (click_button { okButton with existsR := .ok false } "Accept" 0).1 =
      [Event.existsCall "Accept"] ∧
    (click_button { okButton with existsR := .ok false } "Accept"
      0).1.countP isInvocation = 0 :=
  click_button_not_found_short_circuits _ "Accept" 0 rfl

/-- C3 counterexample: with a pre-click delay of 1, the cascade sleeps
AFTER the existence/enabled checks and invokes with NO re-verification
between the sleep and the invocation, so the claimed
"re-verification occurs after the gap and before any invocation strategy
runs" is false on this concrete run. -/
theorem click_button_no_reverify_after_delay_cex :
    (click_button okButton "Accept" 1).1 =
      [Event.existsCall "Accept", Event.nameRead "Accept",
        Event.log "Found Accept button: Accept All", Event.enabledRead "Accept",
        Event.sleep 1, Event.invokeCall "Accept",
        Event.log "Success: Accept button invoked via UIA Pattern!",
        Event.sleep (1/2)] ∧
    reverifiedBetween (click_button okButton "Accept" 1).1 = false := by
  exact ⟨rfl, rfl⟩

/-- C3 amended: the existence, name and enabled reads all happen BEFORE the
configured pre-click delay; after the delay the first invocation strategy
runs directly and no further re-verification read occurs for the rest of
the cascade. -/
theorem click_button_reverify_before_delay (b : ControlBehavior)
    (bt nm : String) (d : ℚ) (hd : 0 < d) (hex : b.existsR = .ok true)
    (hnm : b.nameR = .ok nm) (hen : b.isEnabledR = .ok true) :
    ∃ post, (click_button b bt d).1 =
      [Event.existsCall bt, Event.nameRead bt,
        Event.log ("Found " ++ bt ++ " button: " ++ nm), Event.enabledRead bt,
        Event.sleep d, Event.invokeCall bt] ++ post ∧
      post.countP isCheckEvent = 0 := by
  obtain ⟨post, htr, hchk, -⟩ := click_button_enabled_shape b bt nm d hex hnm hen
  refine ⟨post, ?_, hchk⟩
  rw [htr]
  simp [hd]

/-- C3 amended witness: the concrete delayed run of `okButton`. -/
theorem click_button_reverify_before_delay_witness :
    ∃ post, (click_button okButton "Accept" 1).1 =
      [Event.existsCall "Accept", Event.nameRead "Accept",
        Event.log ("Found " ++ "Accept" ++ " button: " ++ "Accept All"),
        Event.enabledRead "Accept", Event.sleep 1,
        Event.invokeCall "Accept"] ++ post ∧
      post.countP isCheckEvent = 0 :=
  click_button_reverify_before_delay okButton "Accept" "Accept All" 1
    (by norm_num) rfl rfl rfl

/-- C4 counterexample: a control supporting only the physical click is
activated successfully by strategy 3, yet the cascade returns at once —
its trace does not end with the 0.5 settle sleep, refuting "after EVERY
successful activation ... a fixed settle delay before returning". -/
theorem click_button_strategy3_no_settle_cex :
    (click_button clickOnlyButton "Accept" 0).2 = .ok true ∧
    (click_button clickOnlyButton "Accept" 0).1.getLast? ≠
      some (Event.sleep (1/2)) := by
  exact ⟨rfl, by decide⟩

/-- C4 amended: the 0.5 settle sleep before returning is enforced after a
success of strategy 1 (`Invoke`) or strategy 2 (legacy default action), but
a strategy-3 (physical click) success returns without it. -/
theorem click_button_settle_after_programmatic_success (b : ControlBehavior)
    (bt nm : String) (d : ℚ) (hex : b.existsR = .ok true)
    (hnm : b.nameR = .ok nm) (hen : b.isEnabledR = .ok true) :
    ((∃ u, b.invokeR = .ok u) →
      (click_button b bt d).2 = .ok true ∧
      ∃ pre, (click_button b bt d).1 = pre ++ [Event.sleep (1/2)]) ∧
    ((∃ e, b.invokeR = .error e) → b.getLegacy = .ok true →
      b.doDefaultAction = .ok () →
      (click_button b bt d).2 = .ok true ∧
      ∃ pre, (click_button b bt d).1 = pre ++ [Event.sleep (1/2)]) := by
  obtain ⟨ex, nmR, en, inv, leg, dda, cl⟩ := b
  dsimp only at hex hnm hen
  subst hex hnm hen
  constructor
  · rintro ⟨u, hu⟩
    dsimp only at hu
    subst hu
    by_cases hd : (0 : ℚ) < d
    · exact ⟨rfl, [Event.existsCall bt, Event.nameRead bt,
        Event.log ("Found " ++ bt ++ " button: " ++ nm), Event.enabledRead bt,
        Event.sleep d, Event.invokeCall bt,
        Event.log ("Success: " ++ bt ++ " button invoked via UIA Pattern!")],
        by simp [click_button, hd]⟩
    · exact ⟨rfl, [Event.existsCall bt, Event.nameRead bt,
        Event.log ("Found " ++ bt ++ " button: " ++ nm), Event.enabledRead bt,
        Event.invokeCall bt,
        Event.log ("Success: " ++ bt ++ " button invoked via UIA Pattern!")],
        by simp [click_button, hd]⟩
  · rintro ⟨e, he⟩ hleg hdda
    dsimp only at he hleg hdda
    subst he hleg hdda
    by_cases hd : (0 : ℚ) < d
    · exact ⟨rfl, [Event.existsCall bt, Event.nameRead bt,
        Event.log ("Found " ++ bt ++ " button: " ++ nm), Event.enabledRead bt,
        Event.sleep d, Event.invokeCall bt, Event.log ("Invoke failed: " ++ e),
        Event.legacyGet bt, Event.legacyDoDefault bt,
        Event.log ("Success: " ++ bt ++ " button invoked via LegacyIAccessible!")],
        by simp [click_button, hd]⟩
    · exact ⟨rfl, [Event.existsCall bt, Event.nameRead bt,
        Event.log ("Found " ++ bt ++ " button: " ++ nm), Event.enabledRead bt,
        Event.invokeCall bt, Event.log ("Invoke failed: " ++ e),
        Event.legacyGet bt, Event.legacyDoDefault bt,
        Event.log ("Success: " ++ bt ++ " button invoked via LegacyIAccessible!")],
        by simp [click_button, hd]⟩

/-- C4 amended witness: strategy-1 success on `okButton` ends in the settle
sleep. -/
theorem click_button_settle_after_programmatic_success_witness :
    (click_button okButton "Accept" 0).2 = .ok true ∧
    ∃ pre, (click_button okButton "Accept" 0).1 = pre ++ [Event.sleep (1/2)] :=
  (click_button_settle_after_programmatic_success okButton "Accept"
    "Accept All" 0 rfl rfl rfl).1 ⟨(), rfl⟩

/-- C5 counterexample: a backend error during window enumeration is caught
and the loop proceeds, but — contrary to the claim — it is NOT logged: the
handler is a bare swallow, so the two-cycle run whose first cycle raises
emits no log event at all. -/
theorem watch_loop_error_not_logged_cex :
    (cycle defaultCfg enumRaisesEnv).2 = .error "boom" ∧
    runMain defaultCfg [enumRaisesEnv, enumRaisesEnv] =
      [Event.enumChildren, Event.sleep (1/2), Event.enumChildren,
        Event.sleep (1/2)] ∧
    (runMain defaultCfg [enumRaisesEnv, enumRaisesEnv]).countP isLogEvent = 0 :=
  ⟨rfl, rfl, rfl⟩

/-- C5 amended: any error raised while querying the backend during a cycle
is caught at the cycle boundary and silently discarded (no log line is
emitted by the handler); the loop sleeps the poll interval and proceeds, so
after a failing cycle at least one further cycle (with its enumeration
call) is performed. -/
theorem watch_loop_error_contained (cfg : Config) (e1 e2 : CycleEnv)
    (rest : List CycleEnv) (err : String)
    (h : (cycle cfg e1).2 = .error err) :
    runMain cfg (e1 :: e2 :: rest) =
      (cycle cfg e1).1 ++ Event.sleep (1/2) :: runMain cfg (e2 :: rest) ∧
    2 ≤ (runMain cfg (e1 :: e2 :: rest)).count Event.enumChildren := by
  refine ⟨rfl, ?_⟩
  have h1 : 0 < (cycle cfg e1).1.count Event.enumChildren :=
    List.count_pos_iff.mpr (enumChildren_mem_cycle cfg e1)
  have h2 : 0 < (cycle cfg e2).1.count Event.enumChildren :=
    List.count_pos_iff.mpr (enumChildren_mem_cycle cfg e2)
  simp only [runMain, List.count_append, List.count_cons]
  omega

/-- C5 witness: the enumeration-raising cycle is followed by a full second
cycle. -/
theorem watch_loop_error_contained_witness :
    runMain defaultCfg [enumRaisesEnv, enumRaisesEnv] =
      (cycle defaultCfg enumRaisesEnv).1 ++ Event.sleep (1/2) ::
        runMain defaultCfg [enumRaisesEnv] ∧
    2 ≤ (runMain defaultCfg [enumRaisesEnv, enumRaisesEnv]).count
      Event.enumChildren :=
  watch_loop_error_contained defaultCfg enumRaisesEnv enumRaisesEnv [] "boom" rfl

/-- C9: a top-level window whose class tag differs from
`"Chrome_WidgetWin_1"` is skipped entirely, whatever its name: the cycle's
trace and outcome are exactly those of the remaining windows, so no subtree
search is ever performed on it. -/
theorem watch_loop_skips_other_classes (cfg : Config) (w : WindowB)
    (ws : List WindowB) (h : w.className ≠ "Chrome_WidgetWin_1") :
    processWindows cfg (w :: ws) = processWindows cfg ws := by
  simp [processWindows, h]

/-- C9 witness: a window of another class contributes nothing to the
cycle. -/
theorem watch_loop_skips_other_classes_witness :
    processWindows defaultCfg
      [{ className := "Notepad", name := "Accept everything",
          acceptSearch := .ok okButton, confirmSearch := .ok okButton }] =
      processWindows defaultCfg [] :=
  watch_loop_skips_other_classes defaultCfg _ [] (by simp)

/-- C6: when a target-class window's Accept click succeeds, the cycle
immediately sleeps the 0.5 settle delay, performs exactly one subtree
search for the Confirm pattern on the same window, checks the found
control's existence and runs the cascade on it if it exists; a missing
Confirm control ends the cycle body normally (not an error). -/
theorem watch_loop_confirm_after_accept (cfg : Config) (w : WindowB)
    (ws : List WindowB) (ab cb : ControlBehavior)
    (hp : cfg.accept_pattern ≠ cfg.confirm_pattern)
    (hcl : w.className = "Chrome_WidgetWin_1")
    (hA : w.acceptSearch = .ok ab)
    (hok : (click_button ab "Accept" cfg.click_delay).2 = .ok true)
    (hC : w.confirmSearch = .ok cb) :
    (cb.existsR = .ok true →
      (processWindows cfg (w :: ws)).1 =
        Event.search w.name cfg.accept_pattern ::
          (click_button ab "Accept" cfg.click_delay).1 ++
          Event.sleep (1/2) :: Event.search w.name cfg.confirm_pattern ::
          Event.existsCall "Confirm" ::
          (click_button cb "Confirm" cfg.click_delay).1) ∧
    (cb.existsR = .ok false →
      (processWindows cfg (w :: ws)).1 =
        Event.search w.name cfg.accept_pattern ::
          (click_button ab "Accept" cfg.click_delay).1 ++
          [Event.sleep (1/2), Event.search w.name cfg.confirm_pattern,
            Event.existsCall "Confirm"] ∧
      (processWindows cfg (w :: ws)).2 = .ok ()) ∧
    (processWindows cfg (w :: ws)).1.count
      (Event.search w.name cfg.confirm_pattern) = 1 := by
  obtain ⟨cn, nmW, acc, conf⟩ := w
  dsimp only at hcl hA hC
  subst hcl hA hC
  have hns1 : (click_button ab "Accept" cfg.click_delay).1.count
      (Event.search nmW cfg.confirm_pattern) = 0 :=
    List.count_eq_zero.mpr
      (click_button_search_not_mem ab "Accept" cfg.click_delay nmW
        cfg.confirm_pattern)
  have hns2 : (click_button cb "Confirm" cfg.click_delay).1.count
      (Event.search nmW cfg.confirm_pattern) = 0 :=
    List.count_eq_zero.mpr
      (click_button_search_not_mem cb "Confirm" cfg.click_delay nmW
        cfg.confirm_pattern)
  refine ⟨?_, ?_, ?_⟩
  · intro hex
    rcases hcc : (click_button cb "Confirm" cfg.click_delay).2 with e | b <;>
      simp [processWindows, hok, hex, hcc]
  · intro hex
    simp [processWindows, hok, hex]
  · rcases hex : cb.existsR with e | b
    · simp [processWindows, hok, hex, List.count_append, List.count_cons,
        hns1, Ne.symm hp]
    · rcases b <;>
        [simp [processWindows, hok, hex, List.count_append, List.count_cons,
          hns1, Ne.symm hp];
         (rcases hcc : (click_button cb "Confirm" cfg.click_delay).2 with
            e2 | b2 <;>
          [simp [processWindows, hok, hex, hcc, List.count_append,
            List.count_cons, hns1, hns2, Ne.symm hp];
           simp [processWindows, hok, hex, hcc, List.count_append,
            List.count_cons, hns1, hns2, Ne.symm hp]])]

/-- C6 witness: Accept succeeds on the first strategy, the Confirm search
finds an existing button, and the cascade runs on it. -/
theorem watch_loop_confirm_after_accept_witness :
    (processWindows defaultCfg
      [{ className := "Chrome_WidgetWin_1", name := "Antigravity",
          acceptSearch := .ok okButton, confirmSearch := .ok okButton }]).1 =
      Event.search "Antigravity" defaultCfg.accept_pattern ::
        (click_button okButton "Accept" defaultCfg.click_delay).1 ++
        Event.sleep (1/2) ::
        Event.search "Antigravity" defaultCfg.confirm_pattern ::
        Event.existsCall "Confirm" ::
        (click_button okButton "Confirm" defaultCfg.click_delay).1 :=
  (watch_loop_confirm_after_accept defaultCfg _ [] okButton okButton
    (by simp [defaultCfg]) rfl rfl rfl rfl).1 rfl

/-- C7: when the Accept cascade reports no success (control missing,
disabled, or all strategies failed) in a target-class window, the cycle
still searches that window for the Confirm pattern and runs the cascade on
the result; if the Confirm control exists and is enabled, at least one
invocation attempt on it occurs. -/
theorem watch_loop_confirm_alone (cfg : Config) (w : WindowB)
    (ws : List WindowB) (ab cb : ControlBehavior) (nm : String)
    (hcl : w.className = "Chrome_WidgetWin_1")
    (hA : w.acceptSearch = .ok ab)
    (hfail : (click_button ab "Accept" cfg.click_delay).2 = .ok false)
    (hC : w.confirmSearch = .ok cb) :
    (∃ tail, (processWindows cfg (w :: ws)).1 =
      Event.search w.name cfg.accept_pattern ::
        (click_button ab "Accept" cfg.click_delay).1 ++
        Event.search w.name cfg.confirm_pattern ::
        (click_button cb "Confirm" cfg.click_delay).1 ++ tail) ∧
    (cb.existsR = .ok true → cb.nameR = .ok nm → cb.isEnabledR = .ok true →
      Event.invokeCall "Confirm" ∈ (processWindows cfg (w :: ws)).1) := by
  obtain ⟨cn, nmW, acc, conf⟩ := w
  dsimp only at hcl hA hC
  subst hcl hA hC
  constructor
  · rcases hcc : (click_button cb "Confirm" cfg.click_delay).2 with e | b
    · exact ⟨[], by simp [processWindows, hfail, hcc]⟩
    · rcases b
      · exact ⟨(processWindows cfg ws).1, by simp [processWindows, hfail, hcc]⟩
      · exact ⟨[], by simp [processWindows, hfail, hcc]⟩
  · intro hex hnm hen
    obtain ⟨post, htr, -, -⟩ :=
      click_button_enabled_shape cb "Confirm" nm cfg.click_delay hex hnm hen
    have hmem : Event.invokeCall "Confirm" ∈
        (click_button cb "Confirm" cfg.click_delay).1 := by
      rw [htr]
      simp
    rcases hcc : (click_button cb "Confirm" cfg.click_delay).2 with e | b
    · simp [processWindows, hfail, hcc, hmem]
    · rcases b <;> simp [processWindows, hfail, hcc, hmem]

/-- C7 witness: the Accept button is disabled, so its cascade returns
false; the enabled Confirm button is searched for and invoked. -/
theorem watch_loop_confirm_alone_witness :
    (∃ tail, (processWindows defaultCfg
      [{ className := "Chrome_WidgetWin_1", name := "Antigravity",
          acceptSearch := .ok { okButton with isEnabledR := .ok false },
          confirmSearch := .ok okButton }]).1 =
      Event.search "Antigravity" defaultCfg.accept_pattern ::
        (click_button { okButton with isEnabledR := .ok false } "Accept"
          defaultCfg.click_delay).1 ++
        Event.search "Antigravity" defaultCfg.confirm_pattern ::
        (click_button okButton "Confirm" defaultCfg.click_delay).1 ++ tail) ∧
    Event.invokeCall "Confirm" ∈ (processWindows defaultCfg
      [{ className := "Chrome_WidgetWin_1", name := "Antigravity",
          acceptSearch := .ok { okButton with isEnabledR := .ok false },
          confirmSearch := .ok okButton }]).1 := by
  have h := watch_loop_confirm_alone defaultCfg
    { className := "Chrome_WidgetWin_1", name := "Antigravity",
      acceptSearch := .ok { okButton with isEnabledR := .ok false },
      confirmSearch := .ok okButton } []
    { okButton with isEnabledR := .ok false } okButton "Accept All"
    rfl rfl rfl rfl
  exact ⟨h.1, h.2 rfl rfl rfl⟩

/-- C10: the cascade's fault isolation does not cover the control's
property reads: if the existence check, the name read or the enabled-flag
read raises, `click_button` itself raises (having attempted no invocation
strategy), the remaining windows of the cycle are not processed, and the
error is absorbed only by the cycle-boundary handler, after which the loop
still sleeps the poll interval and continues with the next cycle. -/
theorem property_read_error_aborts_cycle (cfg : Config) (w : WindowB)
    (ws : List WindowB) (rest : List CycleEnv) (ab : ControlBehavior)
    (err : String) (hcl : w.className = "Chrome_WidgetWin_1")
    (hA : w.acceptSearch = .ok ab)
    (hraise : ab.existsR = .error err ∨
      (ab.existsR = .ok true ∧ ab.nameR = .error err) ∨
      (ab.existsR = .ok true ∧ (∃ nm, ab.nameR = .ok nm) ∧
        ab.isEnabledR = .error err)) :
    (click_button ab "Accept" cfg.click_delay).2 = .error err ∧
    (click_button ab "Accept" cfg.click_delay).1.countP isInvocation = 0 ∧
    (processWindows cfg (w :: ws)).2 = .error err ∧
    (processWindows cfg (w :: ws)).1 =
      Event.search w.name cfg.accept_pattern ::
        (click_button ab "Accept" cfg.click_delay).1 ∧
    runMain cfg ({ children := .ok (w :: ws) } :: rest) =
      (Event.enumChildren :: (processWindows cfg (w :: ws)).1) ++
        Event.sleep (1/2) :: runMain cfg rest := by
  obtain ⟨cn, nmW, acc, conf⟩ := w
  dsimp only at hcl hA
  subst hcl hA
  obtain ⟨ex, nmR, en, inv, leg, dda, cl⟩ := ab
  have herr : (click_button ⟨ex, nmR, en, inv, leg, dda, cl⟩ "Accept"
      cfg.click_delay).2 = .error err := by
    rcases hraise with h1 | ⟨h1, h2⟩ | ⟨h1, ⟨nm, h2⟩, h3⟩
    · dsimp only at h1
      subst h1
      rfl
    · dsimp only at h1 h2
      subst h1 h2
      rfl
    · dsimp only at h1 h2 h3
      subst h1 h2 h3
      rfl
  have hinv : (click_button ⟨ex, nmR, en, inv, leg, dda, cl⟩ "Accept"
      cfg.click_delay).1.countP isInvocation = 0 := by
    rcases hraise with h1 | ⟨h1, h2⟩ | ⟨h1, ⟨nm, h2⟩, h3⟩
    · dsimp only at h1
      subst h1
      rfl
    · dsimp only at h1 h2
      subst h1 h2
      rfl
    · dsimp only at h1 h2 h3
      subst h1 h2 h3
      rfl
  refine ⟨herr, hinv, ?_, ?_, ?_⟩
  · simp [processWindows, herr]
  · simp [processWindows, herr]
  · simp [runMain, cycle]

/-- C10 witness: a raising `Name` property read escapes the cascade, aborts
the cycle, and the loop still performs the poll sleep and the next cycle. -/
theorem property_read_error_aborts_cycle_witness :
    (click_button nameRaisesButton "Accept" defaultCfg.click_delay).2 =
      .error "COMError" ∧
    (click_button nameRaisesButton "Accept"
      defaultCfg.click_delay).1.countP isInvocation = 0 ∧
    (processWindows defaultCfg
      [{ className := "Chrome_WidgetWin_1", name := "Antigravity",
          acceptSearch := .ok nameRaisesButton,
          confirmSearch := .ok okButton }]).2 = .error "COMError" ∧
    (processWindows defaultCfg
      [{ className := "Chrome_WidgetWin_1", name := "Antigravity",
          acceptSearch := .ok nameRaisesButton,
          confirmSearch := .ok okButton }]).1 =
      Event.search "Antigravity" defaultCfg.accept_pattern ::
        (click_button nameRaisesButton "Accept" defaultCfg.click_delay).1 ∧
    runMain defaultCfg
      ({ children := .ok
          [{ className := "Chrome_WidgetWin_1", name := "Antigravity",
              acceptSearch := .ok nameRaisesButton,
              confirmSearch := .ok okButton }] } :: [enumRaisesEnv]) =
      (Event.enumChildren :: (processWindows defaultCfg
        [{ className := "Chrome_WidgetWin_1", name := "Antigravity",
            acceptSearch := .ok nameRaisesButton,
            confirmSearch := .ok okButton }]).1) ++
        Event.sleep (1/2) :: runMain defaultCfg [enumRaisesEnv] :=
  property_read_error_aborts_cycle defaultCfg _ [] [enumRaisesEnv]
    nameRaisesButton "COMError" rfl rfl (Or.inr (Or.inl ⟨rfl, rfl⟩))

end UiaClicker
